import Mathlib

/-!
Verification of the docker-planefence alert pipeline
(`send-discord-alert.py` together with the `pflib` module under
`usr/lib/python3/dist-packages`, the copy the script actually imports:
it is the only one providing `pf.send` and the webhook configuration).

Feed files are modelled after CSV tokenisation: a file is a
`List (List String)` of rows, each row a list of fields; a blank line
tokenises to `[]`.  Python string primitives (`strip`, `replace`,
`startswith`, `lower`) are modelled over `String.data`.
-/

set_option autoImplicit false

namespace Planefence

instance {ε α : Type} [DecidableEq ε] [DecidableEq α] : DecidableEq (Except ε α) :=
  fun a b =>
    match a, b with
    | Except.error e1, Except.error e2 =>
      if h : e1 = e2 then Decidable.isTrue (by rw [h])
      else Decidable.isFalse (fun hc => h (by cases hc; rfl))
    | Except.ok a1, Except.ok a2 =>
      if h : a1 = a2 then Decidable.isTrue (by rw [h])
      else Decidable.isFalse (fun hc => h (by cases hc; rfl))
    | Except.error _, Except.ok _ => Decidable.isFalse (fun hc => by cases hc)
    | Except.ok _, Except.error _ => Decidable.isFalse (fun hc => by cases hc)

/-- Python `str.strip()`: remove leading and trailing whitespace. -/
def pyStrip (s : String) : String :=
  ⟨((s.data.dropWhile Char.isWhitespace).reverse.dropWhile Char.isWhitespace).reverse⟩

/-- Python `str.startswith("#")` : true iff the first character is `#`. -/
def pyStartsWithHash (s : String) : Bool :=
  match s.data with
  | [] => false
  | c :: _ => c == '#'

/-- Python `str.replace(c, "")`: remove every occurrence of the character `c`. -/
def pyRemoveChar (c : Char) (s : String) : String :=
  ⟨s.data.filter (fun d => d != c)⟩

/-- Python `str.lower()` restricted to the alphabet at hand: case-fold each character. -/
def pyLower (s : String) : String :=
  ⟨s.data.map Char.toLower⟩

/-- Function `pflib.is_emergency`: squawk is one of the three emergency codes,
an exact string membership test. -/
def is_emergency (squawk : String) : Bool :=
  squawk == "7700" || squawk == "7600" || squawk == "7500"

/-- Function `pflib.flightaware_link`: strip both identifiers, delete the literal
bracket characters, then interpolate into the FlightAware URL. -/
def flightaware_link (icao tail_num : String) : String :=
  let icao := pyRemoveChar ']' (pyRemoveChar '[' (pyStrip icao))
  let tail_num := pyRemoveChar ']' (pyRemoveChar '[' (pyStrip tail_num))
  "https://flightaware.com/live/modes/" ++ icao ++ "/ident/" ++ tail_num ++ "/redirect"

/-- One row of the static registry (`plane-alert-db.txt`), as the dict
built by `pflib.load_planefile`. -/
structure PlaneInfo where
  icao : String
  tail_num : String
  owner : String
  type : String
  icao_type : String
  authority : String
  tag1 : String
  tag2 : String
  tag3 : String
  category : String
  link : String
deriving DecidableEq

/-- The sentinel returned on a registry miss: observationally, the empty
dict `{}` read through `.get(key, "")` is the entry with every field empty. -/
def emptyPlaneInfo : PlaneInfo :=
  ⟨"", "", "", "", "", "", "", "", "", "", ""⟩

/-- Parse one registry row exactly as the loop body of `load_planefile`
evaluates it.  `row[0]` is evaluated before the `not row` test, so an
empty row raises `IndexError`; a non-comment row also evaluates
`row[1]`, `row[2]`, `row[3]` unconditionally, so a row of fewer than 4
fields raises as well; fields 4 and up default to the empty string.
`Except.error` models the uncaught `IndexError`; `.ok none` a skipped
comment row. -/
def parsePlaneRow (row : List String) : Except String (Option PlaneInfo) :=
  match row with
  | [] => Except.error "IndexError: list index out of range"
  | f0 :: _ =>
    if pyStartsWithHash f0 then Except.ok none
    else if row.length < 4 then Except.error "IndexError: list index out of range"
    else Except.ok (some
      { icao := f0
        tail_num := row.getD 1 ""
        owner := row.getD 2 ""
        type := row.getD 3 ""
        icao_type := row.getD 4 ""
        authority := row.getD 5 ""
        tag1 := row.getD 6 ""
        tag2 := row.getD 7 ""
        tag3 := row.getD 8 ""
        category := row.getD 9 ""
        link := row.getD 10 "" })

/-- The registry: a Python dict modelled as an append-only association
list; `planedb[k] = v` appends, and lookup takes the latest binding, so
the later row wins exactly as in a dict. -/
abbrev Registry := List (String × PlaneInfo)

/-- The loop of `pflib.load_planefile`, threading the dict being built. -/
def load_planefile_go (db : Registry) : List (List String) → Except String Registry
  | [] => Except.ok db
  | row :: rest =>
    match parsePlaneRow row with
    | Except.error e => Except.error e
    | Except.ok none => load_planefile_go db rest
    | Except.ok (some p) => load_planefile_go (db ++ [(p.icao, p)]) rest

/-- Function `pflib.load_planefile`: start from the empty dict. -/
def load_planefile (rows : List (List String)) : Except String Registry :=
  load_planefile_go [] rows

/-- Function `pflib.get_plane_info`, that is `planedb.get(icao, \x7b\x7d)`, with the miss case
observed through `.get(field, "")` as the all-empty entry. -/
def get_plane_info (db : Registry) (icao : String) : PlaneInfo :=
  ((db.reverse.find? (fun q => q.1 == icao)).map Prod.snd).getD emptyPlaneInfo

/-- One row of the sighting feed, as the dict built by `load_alerts`. -/
structure AlertRecord where
  icao : String
  tail_num : String
  owner : String
  plane_desc : String
  date : String
  time : String
  lat : String
  long : String
  callsign : String
  adsbx_url : String
  squawk : String
deriving DecidableEq

/-- The row filter of `load_alerts`: `len(row) < 10 or row[0].startswith("#")`. -/
def skipAlertRow (row : List String) : Bool :=
  decide (row.length < 10) || pyStartsWithHash (row.getD 0 "")

/-- The dict literal appended by `load_alerts` for a row that passed the filter. -/
def parseAlertRow (row : List String) : AlertRecord :=
  { icao := pyStrip (row.getD 0 "")
    tail_num := pyStrip (row.getD 1 "")
    owner := pyStrip (row.getD 2 "")
    plane_desc := row.getD 3 ""
    date := row.getD 4 ""
    time := row.getD 5 ""
    lat := row.getD 6 ""
    long := row.getD 7 ""
    callsign := pyStrip (row.getD 8 "")
    adsbx_url := row.getD 9 ""
    squawk := row.getD 10 "" }

/-- Function `load_alerts` of `send-discord-alert.py`: fold over the file's rows,
appending a record for each row that passes the filter. -/
def load_alerts (rows : List (List String)) : List AlertRecord :=
  rows.foldl (fun alerts row =>
    if skipAlertRow row then alerts else alerts ++ [parseAlertRow row]) []

/-- Modelled from the spec: the `pflib.embed` module imported by the
pipeline is not among the sources; the spec's NotificationPayload is "an
ordered list of label/value pairs plus a title, description, and color,
representing one outbound message". -/
structure Embed where
  title : String
  description : String
  color : Nat
  fields : List (String × String)
deriving DecidableEq

namespace embed

/-- Modelled from the spec: `pflib.embed.build(title, description, color)`
creates the payload with the given title, description and color and no
label/value pairs yet. -/
def build (title description : String) (color : Nat) : Embed :=
  ⟨title, description, color, []⟩

/-- Modelled from the spec: `pflib.embed.field(embed, name, value)` appends
one label/value pair at the end of the payload's ordered field list. -/
def field (e : Embed) (name value : String) : Embed :=
  { e with fields := e.fields ++ [(name, value)] }

end embed

/-- The configuration read by the loop body: only `DISCORD_FEEDER_NAME`
is consulted (via `config.get(key, "")`, so always a string, possibly empty). -/
structure Config where
  DISCORD_FEEDER_NAME : String
deriving DecidableEq

/-- A guarded `pf.embed.field` call: `if cond: pf.embed.field(e, name, value)`. -/
def addIf (e : Embed) (cond : Bool) (name value : String) : Embed :=
  if cond then embed.field e name value else e

/-- The body of the loop of `process_alerts` in `send-discord-alert.py`:
build the embed for one alert, following the source line by line. -/
def buildAlertEmbed (config : Config) (plane : AlertRecord) (dbinfo : PlaneInfo) : Embed :=
  let fa_link := flightaware_link plane.icao plane.tail_num
  let title :=
    if is_emergency plane.squawk then
      "Air Emergency! " ++ plane.tail_num ++ " squawked " ++ plane.squawk
    else "Plane Alert - " ++ plane.plane_desc
  let color : Nat := if is_emergency plane.squawk then 0xff0000 else 0xf2e718
  let description :=
    (if plane.owner != "" then "Operated by **" ++ plane.owner ++ "**" else "")
      ++ "\n[Track on ADS-B Exchange](" ++ plane.adsbx_url ++ ")"
  let e := embed.build title description color
  let e := addIf e (config.DISCORD_FEEDER_NAME != "") "Feeder" config.DISCORD_FEEDER_NAME
  let e := embed.field e "ICAO" plane.icao
  let e := embed.field e "Tail Number" ("[" ++ plane.tail_num ++ "](" ++ fa_link ++ ")")
  let e := addIf e (plane.callsign != "") "Callsign" plane.callsign
  let e := addIf e (dbinfo.category != "") "Category" dbinfo.category
  let e := addIf e (dbinfo.tag1 != "") "Tag" dbinfo.tag1
  let e := addIf e (dbinfo.tag2 != "") "Tag" dbinfo.tag2
  let e := addIf e (dbinfo.tag3 != "") "Tag" dbinfo.tag3
  let e := addIf e (dbinfo.link != "") "Link" ("[Learn More](" ++ dbinfo.link ++ ")")
  e

/-- Function `process_alerts`: a sequential fold over the loaded alerts.  The
delivery collaborator `pf.send` is, per its interface, a call that
returns success or failure; the loop ignores that result, which we record
in a transcript of (payload, delivery result) pairs in call order. -/
def process_alerts (send : String → Embed → Bool) (config : Config) (db : Registry)
    (alerts : List AlertRecord) : List (Embed × Bool) :=
  alerts.foldl (fun results plane =>
    let dbinfo := get_plane_info db plane.icao
    let e := buildAlertEmbed config plane dbinfo
    results ++ [(e, send "PA" e)]) []

/-- The registry entries a file's rows create, in file order: one per
non-comment, non-raising row. -/
def regEntries (rows : List (List String)) : List PlaneInfo :=
  rows.filterMap (fun row =>
    match parsePlaneRow row with
    | Except.ok (some p) => some p
    | _ => none)

/-- The registry entries a file's rows store under key `k`, in file order. -/
def regHits (rows : List (List String)) (k : String) : List PlaneInfo :=
  (regEntries rows).filter (fun p => p.icao == k)

/-- Sample configuration used by concrete instantiations below. -/
def sampleConfig : Config := ⟨"myfeeder"⟩

/-- The alert row of the spec's end-to-end scenario. -/
def sampleAlertRow : List String :=
  ["A51316", "N426NA", "NASA", "Lockheed P-3B Orion", "2022-01-01", "12:00:00",
    "10.0", "-70.0", "NASA1", "https://adsbexchange.com/x", "1200"]

/-- The same alert row with surrounding whitespace in the squawk field. -/
def paddedSquawkRow : List String :=
  ["A51316", "N426NA", "NASA", "Lockheed P-3B Orion", "2022-01-01", "12:00:00",
    "10.0", "-70.0", "NASA1", "https://adsbexchange.com/x", " 7700 "]

/-- The registry row of the spec's end-to-end scenario. -/
def sampleRegRow : List String :=
  ["A51316", "N426NA", "NASA", "Lockheed P-3B Orion", "P3", "Gov", "Sce To Aux",
    "Airborne Science", "Wallops Flight Facility", "Distinctive", "https://www.nasa.gov"]

/-- A registry row whose key field carries surrounding whitespace. -/
def paddedKeyRegRow : List String :=
  [" A51316", "N426NA", "NASA", "Lockheed P-3B Orion"]

/-- The registry entry built from `paddedKeyRegRow` (key kept raw). -/
def paddedKeyEntry : PlaneInfo :=
  ⟨" A51316", "N426NA", "NASA", "Lockheed P-3B Orion", "", "", "", "", "", "", ""⟩

/-- The registry entry built from `sampleRegRow`. -/
def sampleDbinfo : PlaneInfo :=
  ⟨"A51316", "N426NA", "NASA", "Lockheed P-3B Orion", "P3", "Gov", "Sce To Aux",
    "Airborne Science", "Wallops Flight Facility", "Distinctive", "https://www.nasa.gov"⟩

/-! ## Helper lemmas -/

theorem data_append (s t : String) : (s ++ t).data = s.data ++ t.data :=
  match s, t with
  | ⟨_⟩, ⟨_⟩ => rfl

theorem field_title (e : Embed) (n v : String) : (embed.field e n v).title = e.title := rfl

theorem field_description (e : Embed) (n v : String) :
    (embed.field e n v).description = e.description := rfl

theorem field_color (e : Embed) (n v : String) : (embed.field e n v).color = e.color := rfl

theorem field_fields (e : Embed) (n v : String) :
    (embed.field e n v).fields = e.fields ++ [(n, v)] := rfl

theorem addIf_title (e : Embed) (c : Bool) (n v : String) : (addIf e c n v).title = e.title := by
  cases c <;> rfl

theorem addIf_color (e : Embed) (c : Bool) (n v : String) : (addIf e c n v).color = e.color := by
  cases c <;> rfl

theorem addIf_description (e : Embed) (c : Bool) (n v : String) :
    (addIf e c n v).description = e.description := by
  cases c <;> rfl

theorem addIf_fields (e : Embed) (c : Bool) (n v : String) :
    (addIf e c n v).fields = e.fields ++ (if c then [(n, v)] else []) := by
  cases c <;> simp [addIf, field_fields]

/-- The payload title is chosen by the emergency test alone. -/
theorem buildAlertEmbed_title (config : Config) (plane : AlertRecord) (dbinfo : PlaneInfo) :
    (buildAlertEmbed config plane dbinfo).title =
      if is_emergency plane.squawk then
        "Air Emergency! " ++ plane.tail_num ++ " squawked " ++ plane.squawk
      else "Plane Alert - " ++ plane.plane_desc := by
  simp only [buildAlertEmbed, addIf_title, field_title, embed.build]

/-- The payload color is chosen by the emergency test alone. -/
theorem buildAlertEmbed_color (config : Config) (plane : AlertRecord) (dbinfo : PlaneInfo) :
    (buildAlertEmbed config plane dbinfo).color =
      if is_emergency plane.squawk then 0xff0000 else 0xf2e718 := by
  simp only [buildAlertEmbed, addIf_color, field_color, embed.build]

/-- The description depends only on the owner and the ADS-B Exchange URL. -/
theorem buildAlertEmbed_description (config : Config) (plane : AlertRecord)
    (dbinfo : PlaneInfo) :
    (buildAlertEmbed config plane dbinfo).description =
      (if plane.owner != "" then "Operated by **" ++ plane.owner ++ "**" else "")
        ++ "\n[Track on ADS-B Exchange](" ++ plane.adsbx_url ++ ")" := by
  simp only [buildAlertEmbed, addIf_description, field_description, embed.build]

/-- The ordered field list the loop body produces, flattened to one
concatenation of conditional segments. -/
theorem buildAlertEmbed_fields (config : Config) (plane : AlertRecord) (dbinfo : PlaneInfo) :
    (buildAlertEmbed config plane dbinfo).fields =
      (if config.DISCORD_FEEDER_NAME != "" then [("Feeder", config.DISCORD_FEEDER_NAME)] else [])
        ++ [("ICAO", plane.icao),
            ("Tail Number",
              "[" ++ plane.tail_num ++ "](" ++ flightaware_link plane.icao plane.tail_num ++ ")")]
        ++ (if plane.callsign != "" then [("Callsign", plane.callsign)] else [])
        ++ (if dbinfo.category != "" then [("Category", dbinfo.category)] else [])
        ++ (if dbinfo.tag1 != "" then [("Tag", dbinfo.tag1)] else [])
        ++ (if dbinfo.tag2 != "" then [("Tag", dbinfo.tag2)] else [])
        ++ (if dbinfo.tag3 != "" then [("Tag", dbinfo.tag3)] else [])
        ++ (if dbinfo.link != "" then [("Link", "[Learn More](" ++ dbinfo.link ++ ")")] else []) := by
  simp [buildAlertEmbed, addIf_fields, field_fields, embed.build]

theorem mem_ite_singleton {α : Type} {pr x : α} {c : Bool}
    (h : pr ∈ (if c = true then [x] else [])) : c = true ∧ pr = x := by
  cases c <;> simp_all

theorem string_append_ne_empty_left (s t : String) (hs : s.data ≠ []) : s ++ t ≠ "" := by
  intro hcon
  have hd : (s ++ t).data = ([] : List Char) := by rw [hcon]
  rw [data_append, List.append_eq_nil] at hd
  exact hs hd.1

theorem data_ne_nil_left (s t : String) (hs : s.data ≠ []) : (s ++ t).data ≠ [] := by
  rw [data_append]
  intro hc
  rw [List.append_eq_nil] at hc
  exact hs hc.1

/-! ## C1 -/

/-- C1: for every enriched alert and configuration the payload's
label/value pairs appear in exactly the fixed order Feeder (only if the
configured feeder name is non-empty), ICAO, Tail Number rendered as a
link using the tracking link, Callsign (only if non-empty), Category,
Tag 1, Tag 2, Tag 3 (each only if the registry field is non-empty), then
Link rendered as a "Learn More" link (only if the registry entry has
one); under the data-model invariant that `icao` is non-empty, every
appended pair carries a non-empty value, and no non-empty field is
omitted or reordered. -/
theorem payload_field_order (config : Config) (plane : AlertRecord) (dbinfo : PlaneInfo)
    (h : plane.icao ≠ "") :
    (buildAlertEmbed config plane dbinfo).fields =
      (if config.DISCORD_FEEDER_NAME != "" then [("Feeder", config.DISCORD_FEEDER_NAME)] else [])
        ++ [("ICAO", plane.icao),
            ("Tail Number",
              "[" ++ plane.tail_num ++ "](" ++ flightaware_link plane.icao plane.tail_num ++ ")")]
        ++ (if plane.callsign != "" then [("Callsign", plane.callsign)] else [])
        ++ (if dbinfo.category != "" then [("Category", dbinfo.category)] else [])
        ++ (if dbinfo.tag1 != "" then [("Tag", dbinfo.tag1)] else [])
        ++ (if dbinfo.tag2 != "" then [("Tag", dbinfo.tag2)] else [])
        ++ (if dbinfo.tag3 != "" then [("Tag", dbinfo.tag3)] else [])
        ++ (if dbinfo.link != "" then [("Link", "[Learn More](" ++ dbinfo.link ++ ")")] else [])
      ∧ ∀ pr ∈ (buildAlertEmbed config plane dbinfo).fields, pr.2 ≠ "" := by
  refine ⟨buildAlertEmbed_fields config plane dbinfo, ?_⟩
  intro pr hpr
  rw [buildAlertEmbed_fields] at hpr
  simp only [List.mem_append] at hpr
  have hbr : ("[" : String).data ≠ [] := by decide
  have hlm : ("[Learn More](" : String).data ≠ [] := by decide
  rcases hpr with ((((((h1 | h2) | h3) | h4) | h5) | h6) | h7) | h8
  · obtain ⟨hc, rfl⟩ := mem_ite_singleton h1
    simpa using hc
  · simp only [List.mem_cons, List.not_mem_nil, or_false] at h2
    rcases h2 with h2 | h2
    · rw [h2]; exact h
    · rw [h2]
      exact string_append_ne_empty_left _ _
        (data_ne_nil_left _ _ (data_ne_nil_left _ _ (data_ne_nil_left _ _ hbr)))
  · obtain ⟨hc, rfl⟩ := mem_ite_singleton h3
    simpa using hc
  · obtain ⟨hc, rfl⟩ := mem_ite_singleton h4
    simpa using hc
  · obtain ⟨hc, rfl⟩ := mem_ite_singleton h5
    simpa using hc
  · obtain ⟨hc, rfl⟩ := mem_ite_singleton h6
    simpa using hc
  · obtain ⟨hc, rfl⟩ := mem_ite_singleton h7
    simpa using hc
  · obtain ⟨hc, rfl⟩ := mem_ite_singleton h8
    exact string_append_ne_empty_left _ _ (data_ne_nil_left _ _ hlm)

/-- Witness for C1 at the spec's end-to-end scenario inputs. -/
theorem payload_field_order_witness :
    (parseAlertRow sampleAlertRow).icao ≠ "" ∧
    ((buildAlertEmbed sampleConfig (parseAlertRow sampleAlertRow) sampleDbinfo).fields =
      (if sampleConfig.DISCORD_FEEDER_NAME != "" then
        [("Feeder", sampleConfig.DISCORD_FEEDER_NAME)] else [])
        ++ [("ICAO", (parseAlertRow sampleAlertRow).icao),
            ("Tail Number",
              "[" ++ (parseAlertRow sampleAlertRow).tail_num ++ "]("
                ++ flightaware_link (parseAlertRow sampleAlertRow).icao
                    (parseAlertRow sampleAlertRow).tail_num ++ ")")]
        ++ (if (parseAlertRow sampleAlertRow).callsign != "" then
            [("Callsign", (parseAlertRow sampleAlertRow).callsign)] else [])
        ++ (if sampleDbinfo.category != "" then [("Category", sampleDbinfo.category)] else [])
        ++ (if sampleDbinfo.tag1 != "" then [("Tag", sampleDbinfo.tag1)] else [])
        ++ (if sampleDbinfo.tag2 != "" then [("Tag", sampleDbinfo.tag2)] else [])
        ++ (if sampleDbinfo.tag3 != "" then [("Tag", sampleDbinfo.tag3)] else [])
        ++ (if sampleDbinfo.link != "" then
            [("Link", "[Learn More](" ++ sampleDbinfo.link ++ ")")] else [])
      ∧ ∀ pr ∈ (buildAlertEmbed sampleConfig (parseAlertRow sampleAlertRow) sampleDbinfo).fields,
          pr.2 ≠ "") :=
  ⟨by decide, payload_field_order sampleConfig (parseAlertRow sampleAlertRow) sampleDbinfo
    (by decide)⟩

/-! ## C2 -/

/-- C2: `is_emergency` holds exactly for the squawk strings "7700", "7600",
"7500" compared as exact strings ("1200" and "" are not emergencies); when
it holds the title is the alert-styled string naming the tail number and
squawk and the color is pure red 0xff0000, otherwise the title is the
routine-styled string naming the plane description and the color is the
amber/yellow 0xf2e718 — a two-branch decision. -/
theorem emergency_two_branch :
    (∀ s : String, is_emergency s = true ↔ (s = "7700" ∨ s = "7600" ∨ s = "7500")) ∧
    is_emergency "1200" = false ∧ is_emergency "" = false ∧
    ∀ (config : Config) (plane : AlertRecord) (dbinfo : PlaneInfo),
      (is_emergency plane.squawk = true →
        (buildAlertEmbed config plane dbinfo).title =
            "Air Emergency! " ++ plane.tail_num ++ " squawked " ++ plane.squawk ∧
          (buildAlertEmbed config plane dbinfo).color = 0xff0000) ∧
      (is_emergency plane.squawk = false →
        (buildAlertEmbed config plane dbinfo).title = "Plane Alert - " ++ plane.plane_desc ∧
          (buildAlertEmbed config plane dbinfo).color = 0xf2e718) := by
  refine ⟨?_, by decide, by decide, ?_⟩
  · intro s
    simp [is_emergency, Bool.or_eq_true, beq_iff_eq, or_assoc]
  · intro config plane dbinfo
    constructor
    · intro h
      rw [buildAlertEmbed_title, buildAlertEmbed_color, if_pos h, if_pos h]
      exact ⟨rfl, rfl⟩
    · intro h
      rw [buildAlertEmbed_title, buildAlertEmbed_color, if_neg (by simp [h]),
        if_neg (by simp [h])]
      exact ⟨rfl, rfl⟩

/-! ## C5 -/

/-- C5: the tracking link is built from identifiers stripped of
surrounding whitespace and of the literal bracket characters: on the
spec's example inputs the resulting URL contains exactly `A1B2C3` and
`N123AB`, and in general the built URL never contains a bracket
character. -/
theorem flightaware_link_strips :
    flightaware_link " [A1B2C3] " "[N123AB]" =
        "https://flightaware.com/live/modes/A1B2C3/ident/N123AB/redirect" ∧
    ∀ icao tail_num : String,
      '[' ∉ (flightaware_link icao tail_num).data ∧
        ']' ∉ (flightaware_link icao tail_num).data := by
  have key : ∀ s : String, '[' ∉ (pyRemoveChar ']' (pyRemoveChar '[' (pyStrip s))).data ∧
      ']' ∉ (pyRemoveChar ']' (pyRemoveChar '[' (pyStrip s))).data := by
    intro s
    constructor <;> intro h <;> simp [pyRemoveChar, List.mem_filter] at h
  refine ⟨by decide, ?_⟩
  intro icao tail_num
  constructor <;>
  · intro hmem
    simp only [flightaware_link, data_append, List.mem_append] at hmem
    rcases hmem with (((h | h) | h) | h) | h
    · exact absurd h (by decide)
    · first
      | exact absurd h ((key icao).1)
      | exact absurd h ((key icao).2)
    · exact absurd h (by decide)
    · first
      | exact absurd h ((key tail_num).1)
      | exact absurd h ((key tail_num).2)
    · exact absurd h (by decide)

/-! ## C6 -/

theorem empty_string_append (s : String) : "" ++ s = s :=
  match s with
  | ⟨_⟩ => rfl

/-- Counterexample to C6: with an empty owner the description is not the
bare tracking-link line — the unconditionally concatenated `"\n..."`
leaves a leading blank line. -/
theorem description_leading_newline_cex :
    (buildAlertEmbed ⟨""⟩
        ⟨"A51316", "N426NA", "", "Lockheed P-3B Orion", "2022-01-01", "12:00:00",
          "10.0", "-70.0", "NASA1", "https://adsbexchange.com/x", "1200"⟩
        emptyPlaneInfo).description =
      "\n[Track on ADS-B Exchange](https://adsbexchange.com/x)" ∧
    ("\n[Track on ADS-B Exchange](https://adsbexchange.com/x)" : String) ≠
      "[Track on ADS-B Exchange](https://adsbexchange.com/x)" := by
  exact ⟨by decide, by decide⟩

/-- C6 amended: the description carries the "Operated by OWNER" clause
exactly when the owner is non-empty, and always ends with a newline
followed by the tracking line; with an empty owner the description is a
leading newline followed by the tracking-link line. -/
theorem description_owner_and_tracking (config : Config) (plane : AlertRecord)
    (dbinfo : PlaneInfo) :
    (plane.owner ≠ "" →
      (buildAlertEmbed config plane dbinfo).description =
        ("Operated by **" ++ plane.owner ++ "**")
          ++ "\n[Track on ADS-B Exchange](" ++ plane.adsbx_url ++ ")") ∧
    (plane.owner = "" →
      (buildAlertEmbed config plane dbinfo).description =
        "\n[Track on ADS-B Exchange](" ++ plane.adsbx_url ++ ")") := by
  constructor <;> intro h <;> rw [buildAlertEmbed_description]
  · rw [if_pos (by simpa using h)]
  · rw [if_neg (by simp [h]), empty_string_append]

/-- Witness for the amended C6 at a concrete input with non-empty owner. -/
theorem description_owner_and_tracking_witness :
    (buildAlertEmbed sampleConfig (parseAlertRow sampleAlertRow) sampleDbinfo).description =
      ("Operated by **" ++ (parseAlertRow sampleAlertRow).owner ++ "**")
        ++ "\n[Track on ADS-B Exchange](" ++ (parseAlertRow sampleAlertRow).adsbx_url ++ ")" :=
  (description_owner_and_tracking sampleConfig (parseAlertRow sampleAlertRow) sampleDbinfo).1
    (by decide)

/-! ## C3 -/

theorem load_alerts_go (rows : List (List String)) (acc : List AlertRecord) :
    rows.foldl (fun alerts row =>
        if skipAlertRow row then alerts else alerts ++ [parseAlertRow row]) acc =
      acc ++ (rows.filter (fun row => !skipAlertRow row)).map parseAlertRow := by
  induction rows generalizing acc with
  | nil => simp
  | cons row rest ih =>
    simp only [List.foldl_cons, List.filter_cons]
    cases hs : skipAlertRow row
    · simp [hs, ih]
    · simp [hs, ih]

theorem load_alerts_eq (rows : List (List String)) :
    load_alerts rows = (rows.filter (fun row => !skipAlertRow row)).map parseAlertRow := by
  simpa [load_alerts] using load_alerts_go rows []

/-- C3: loading the alert feed keeps, in file order, exactly the rows
that have at least 10 fields and whose first field does not start with
`#` (a total function — skipped rows are silently dropped, never an
error and never partially constructed), and the number of records equals
the number of valid rows. -/
theorem load_alerts_filters (rows : List (List String)) :
    load_alerts rows =
        (rows.filter (fun row =>
          !(decide (row.length < 10) || pyStartsWithHash (row.getD 0 "")))).map parseAlertRow ∧
    (load_alerts rows).length =
        rows.countP (fun row =>
          !(decide (row.length < 10) || pyStartsWithHash (row.getD 0 ""))) := by
  have h := load_alerts_eq rows
  constructor
  · simpa [skipAlertRow] using h
  · rw [h, List.length_map, ← List.countP_eq_length_filter]
    simp [skipAlertRow]

/-! ## Idempotency of stripping -/

theorem dropWhile_idem (p : Char → Bool) (l : List Char) :
    (l.dropWhile p).dropWhile p = l.dropWhile p := by
  induction l with
  | nil => rfl
  | cons a t ih =>
    cases hp : p a
    · simp [List.dropWhile_cons, hp]
    · simp [List.dropWhile_cons, hp, ih]

theorem dropWhile_sfx (p : Char → Bool) (l : List Char) :
    ∃ s, s ++ l.dropWhile p = l := by
  induction l with
  | nil => exact ⟨[], rfl⟩
  | cons a t ih =>
    cases hp : p a
    · exact ⟨[], by simp [List.dropWhile_cons, hp]⟩
    · obtain ⟨s, hs⟩ := ih
      exact ⟨a :: s, by simp [List.dropWhile_cons, hp, hs]⟩

theorem head_dropWhile_false (p : Char → Bool) (l : List Char) (a : Char) (t : List Char)
    (h : l.dropWhile p = a :: t) : p a = false := by
  induction l with
  | nil => simp at h
  | cons b r ih =>
    rw [List.dropWhile_cons] at h
    cases hb : p b
    · rw [hb] at h
      simp only [Bool.false_eq_true, if_false] at h
      obtain ⟨rfl, -⟩ := List.cons.injEq b r a t ▸ h
      · exact hb
    · rw [hb] at h
      simp only [if_true] at h
      exact ih h

theorem lstrip_of_rstrip (p : Char → Bool) (l : List Char) (h : l.dropWhile p = l) :
    ((l.reverse.dropWhile p).reverse).dropWhile p = (l.reverse.dropWhile p).reverse := by
  cases hr : (l.reverse.dropWhile p).reverse with
  | nil => rfl
  | cons a t =>
    obtain ⟨s, hs⟩ := dropWhile_sfx p l.reverse
    have hl : l = (l.reverse.dropWhile p).reverse ++ s.reverse := by
      have h2 := congrArg List.reverse hs
      simpa [List.reverse_append] using h2.symm
    rw [hr] at hl
    have ha : p a = false := by
      refine head_dropWhile_false p l a (t ++ s.reverse) ?_
      rw [h, hl]
      simp
    rw [List.dropWhile_cons, ha]
    simp

theorem rstrip_idem (p : Char → Bool) (l : List Char) :
    ((((l.reverse.dropWhile p).reverse).reverse.dropWhile p).reverse) =
      (l.reverse.dropWhile p).reverse := by
  rw [List.reverse_reverse, dropWhile_idem]

theorem strip_fixed (p : Char → Bool) (l : List Char) :
    ((((((l.dropWhile p).reverse.dropWhile p).reverse).dropWhile p).reverse.dropWhile p).reverse)
      = ((l.dropWhile p).reverse.dropWhile p).reverse := by
  rw [lstrip_of_rstrip p (l.dropWhile p) (dropWhile_idem p l)]
  exact rstrip_idem p (l.dropWhile p)

theorem pyStrip_idem (s : String) : pyStrip (pyStrip s) = pyStrip s := by
  cases s with
  | mk l => exact congrArg String.mk (strip_fixed Char.isWhitespace l)

/-! ## C7 -/

/-- Counterexample to C7: the squawk field (`row[10]`) is not in the
claim's untrimmed list, yet the loader passes it through verbatim — a
row whose 11th field is `" 7700 "` loads with the whitespace intact. -/
theorem squawk_untrimmed_cex :
    (load_alerts [paddedSquawkRow]).map (fun r => r.squawk) = [" 7700 "] ∧
    pyStrip " 7700 " = "7700" ∧ (" 7700 " : String) ≠ "7700" :=
  ⟨by decide, by decide, by decide⟩

/-- C7 amended: for every loaded alert record, `icao`, `tail_num`,
`owner` and `callsign` are trimmed of surrounding whitespace, while
`plane_desc`, `date`, `time`, `lat`, `long`, `adsbx_url` **and
`squawk`** are passed through untrimmed exactly as they appear in the
source row. -/
theorem load_alerts_trim_asymmetry (rows : List (List String)) (rec : AlertRecord)
    (h : rec ∈ load_alerts rows) :
    (pyStrip rec.icao = rec.icao ∧ pyStrip rec.tail_num = rec.tail_num ∧
      pyStrip rec.owner = rec.owner ∧ pyStrip rec.callsign = rec.callsign) ∧
    ∃ row ∈ rows, skipAlertRow row = false ∧
      rec.icao = pyStrip (row.getD 0 "") ∧ rec.tail_num = pyStrip (row.getD 1 "") ∧
      rec.owner = pyStrip (row.getD 2 "") ∧ rec.plane_desc = row.getD 3 "" ∧
      rec.date = row.getD 4 "" ∧ rec.time = row.getD 5 "" ∧ rec.lat = row.getD 6 "" ∧
      rec.long = row.getD 7 "" ∧ rec.callsign = pyStrip (row.getD 8 "") ∧
      rec.adsbx_url = row.getD 9 "" ∧ rec.squawk = row.getD 10 "" := by
  rw [load_alerts_eq] at h
  obtain ⟨row, hrow, hrec⟩ := List.mem_map.mp h
  have hmem := List.mem_filter.mp hrow
  refine ⟨?_, ⟨row, hmem.1, by simpa using hmem.2, ?_⟩⟩
  · rw [← hrec]
    exact ⟨pyStrip_idem _, pyStrip_idem _, pyStrip_idem _, pyStrip_idem _⟩
  · rw [← hrec]
    exact ⟨rfl, rfl, rfl, rfl, rfl, rfl, rfl, rfl, rfl, rfl, rfl⟩

/-- Witness for the amended C7 at the padded-squawk row. -/
theorem load_alerts_trim_asymmetry_witness :
    parseAlertRow paddedSquawkRow ∈ load_alerts [paddedSquawkRow] ∧
    ((pyStrip (parseAlertRow paddedSquawkRow).icao = (parseAlertRow paddedSquawkRow).icao ∧
      pyStrip (parseAlertRow paddedSquawkRow).tail_num = (parseAlertRow paddedSquawkRow).tail_num ∧
      pyStrip (parseAlertRow paddedSquawkRow).owner = (parseAlertRow paddedSquawkRow).owner ∧
      pyStrip (parseAlertRow paddedSquawkRow).callsign = (parseAlertRow paddedSquawkRow).callsign) ∧
    ∃ row ∈ [paddedSquawkRow], skipAlertRow row = false ∧
      (parseAlertRow paddedSquawkRow).icao = pyStrip (row.getD 0 "") ∧
      (parseAlertRow paddedSquawkRow).tail_num = pyStrip (row.getD 1 "") ∧
      (parseAlertRow paddedSquawkRow).owner = pyStrip (row.getD 2 "") ∧
      (parseAlertRow paddedSquawkRow).plane_desc = row.getD 3 "" ∧
      (parseAlertRow paddedSquawkRow).date = row.getD 4 "" ∧
      (parseAlertRow paddedSquawkRow).time = row.getD 5 "" ∧
      (parseAlertRow paddedSquawkRow).lat = row.getD 6 "" ∧
      (parseAlertRow paddedSquawkRow).long = row.getD 7 "" ∧
      (parseAlertRow paddedSquawkRow).callsign = pyStrip (row.getD 8 "") ∧
      (parseAlertRow paddedSquawkRow).adsbx_url = row.getD 9 "" ∧
      (parseAlertRow paddedSquawkRow).squawk = row.getD 10 "") :=
  ⟨by decide, load_alerts_trim_asymmetry [paddedSquawkRow] (parseAlertRow paddedSquawkRow)
    (by decide)⟩

/-! ## Registry lookup characterization -/

theorem get_plane_info_append (db : Registry) (k' : String) (p : PlaneInfo) (k : String) :
    get_plane_info (db ++ [(k', p)]) k = if k' == k then p else get_plane_info db k := by
  unfold get_plane_info
  rw [List.reverse_append]
  simp only [List.reverse_cons, List.reverse_nil, List.nil_append, List.singleton_append]
  cases h : (k' == k)
  · simp [List.find?_cons, h]
  · simp [List.find?_cons, h]

theorem getLast?_cons_getD {α : Type} (L : List α) (p z : α) :
    ((p :: L).getLast?).getD z = (L.getLast?).getD p := by
  cases L with
  | nil => rfl
  | cons a t =>
    rw [List.getLast?_cons_cons, List.getLast?_eq_getLast _ (by simp)]
    simp

theorem get_load_planefile_go (rows : List (List String)) (db db' : Registry)
    (h : load_planefile_go db rows = Except.ok db') (k : String) :
    get_plane_info db' k = ((regHits rows k).getLast?).getD (get_plane_info db k) := by
  induction rows generalizing db with
  | nil =>
    rw [load_planefile_go] at h
    cases h
    simp [regHits, regEntries]
  | cons row rest ih =>
    rw [load_planefile_go] at h
    cases hp : parsePlaneRow row with
    | error e => rw [hp] at h; cases h
    | ok op =>
      cases op with
      | none =>
        rw [hp] at h
        rw [ih db h]
        have : regHits (row :: rest) k = regHits rest k := by
          simp [regHits, regEntries, hp]
        rw [this]
      | some p =>
        rw [hp] at h
        rw [ih (db ++ [(p.icao, p)]) h]
        have hh : regHits (row :: rest) k =
            (if p.icao == k then [p] else []) ++ regHits rest k := by
          simp only [regHits, regEntries, List.filterMap_cons, hp]
          cases hc : (p.icao == k) <;> simp [List.filter_cons, hc]
        rw [hh, get_plane_info_append]
        cases hc : (p.icao == k)
        · simp [hc]
        · simp only [hc, if_true, List.singleton_append]
          exact (getLast?_cons_getD (regHits rest k) p (get_plane_info db k)).symm

/-! ## C4 -/

/-- C4: after a successful registry load, looking up the `icao` of any
loaded row returns the entry with that row's fields (assuming, as the
data model does, that `icao` is a unique key), and looking up an `icao`
no valid row carries returns the all-empty sentinel entry, never an
absence error. -/
theorem registry_load_lookup (rows : List (List String)) (db : Registry)
    (h : load_planefile rows = Except.ok db)
    (huniq : ∀ p1 ∈ regEntries rows, ∀ p2 ∈ regEntries rows, p1.icao = p2.icao → p1 = p2) :
    (∀ row ∈ rows, ∀ p, parsePlaneRow row = Except.ok (some p) →
      get_plane_info db p.icao = p) ∧
    (∀ icao, (∀ p ∈ regEntries rows, p.icao ≠ icao) →
      get_plane_info db icao = emptyPlaneInfo) := by
  have hchar := fun k => get_load_planefile_go rows [] db h k
  constructor
  · intro row hrow p hp
    have hpmem : p ∈ regEntries rows := List.mem_filterMap.mpr ⟨row, hrow, by rw [hp]⟩
    have hhits : ∀ q ∈ regHits rows p.icao, q = p := by
      intro q hq
      have hq2 := List.mem_filter.mp hq
      exact huniq q hq2.1 p hpmem (by simpa using hq2.2)
    have hne : regHits rows p.icao ≠ [] := by
      intro hnil
      have hmem : p ∈ regHits rows p.icao := List.mem_filter.mpr ⟨hpmem, by simp⟩
      rw [hnil] at hmem
      simp at hmem
    rw [hchar p.icao, List.getLast?_eq_getLast _ hne]
    simpa using hhits _ (List.getLast_mem hne)
  · intro icao hno
    have hnil : regHits rows icao = [] := by
      simp only [regHits]
      rw [List.filter_eq_nil_iff]
      intro q hq
      simpa using hno q hq
    rw [hchar icao, hnil]
    rfl

/-- Witness for C4 on the spec's single-row registry: the present key
returns the matching entry, an absent key the all-empty sentinel. -/
theorem registry_load_lookup_witness :
    load_planefile [sampleRegRow] = Except.ok [("A51316", sampleDbinfo)] ∧
    get_plane_info [("A51316", sampleDbinfo)] "A51316" = sampleDbinfo ∧
    get_plane_info [("A51316", sampleDbinfo)] "C0FFEE" = emptyPlaneInfo :=
  ⟨by decide,
    (registry_load_lookup [sampleRegRow] [("A51316", sampleDbinfo)] (by decide)
        (by decide)).1 sampleRegRow (by decide) sampleDbinfo (by decide),
    (registry_load_lookup [sampleRegRow] [("A51316", sampleDbinfo)] (by decide)
        (by decide)).2 "C0FFEE" (by decide)⟩

/-! ## C8 -/

/-- C8: the loader's guard evaluates `row[0]` before the emptiness test,
so a blank line (an empty CSV row) raises IndexError and aborts the
load instead of being skipped, and a non-comment row with fewer than 4
fields aborts as well; only columns from index 4 up default to the empty
string, as the successful load of the 4-field row shows. -/
theorem registry_blank_line_aborts :
    load_planefile [[], sampleRegRow] = Except.error "IndexError: list index out of range" ∧
    load_planefile [["A1"], sampleRegRow] =
        Except.error "IndexError: list index out of range" ∧
    load_planefile [paddedKeyRegRow] = Except.ok [(" A51316", paddedKeyEntry)] ∧
    load_planefile [sampleRegRow] = Except.ok [("A51316", sampleDbinfo)] :=
  ⟨by decide, by decide, by decide, by decide⟩

/-! ## C10 -/

/-- C10: every loaded alert record's `icao` is whitespace-trimmed, while
the registry stores entries under the raw first field of their source
row; lookup is exact string matching, so against a registry all of whose
entries are keyed by a string carrying surrounding whitespace, or
differing from the alert's `icao` only in letter case, the lookup for
that alert returns the all-empty sentinel — such a row is never
returned. -/
theorem raw_key_exact_lookup (arows : List (List String)) (rec : AlertRecord)
    (h : rec ∈ load_alerts arows) :
    pyStrip rec.icao = rec.icao ∧
    ∀ (rows : List (List String)) (db : Registry), load_planefile rows = Except.ok db →
      (∀ p ∈ regEntries rows,
        p.icao ≠ pyStrip p.icao ∨ (p.icao ≠ rec.icao ∧ pyLower p.icao = pyLower rec.icao)) →
      get_plane_info db rec.icao = emptyPlaneInfo := by
  have htrim : pyStrip rec.icao = rec.icao := by
    rw [load_alerts_eq] at h
    obtain ⟨row, hrow, hrec⟩ := List.mem_map.mp h
    rw [← hrec]
    exact pyStrip_idem _
  refine ⟨htrim, ?_⟩
  intro rows db hload hbad
  have hchar := get_load_planefile_go rows [] db hload rec.icao
  have hnil : regHits rows rec.icao = [] := by
    simp only [regHits]
    rw [List.filter_eq_nil_iff]
    intro p hp
    simp only [beq_iff_eq]
    rcases hbad p hp with hws | ⟨hne, -⟩
    · intro hc
      exact hws (by rw [hc, htrim])
    · exact hne
  rw [hchar, hnil]
  rfl

/-- Witness for C10: the loaded sample alert (icao `A51316`) misses the
registry whose only row is keyed `" A51316"` (surrounding whitespace kept). -/
theorem raw_key_exact_lookup_witness :
    parseAlertRow sampleAlertRow ∈ load_alerts [sampleAlertRow] ∧
    load_planefile [paddedKeyRegRow] = Except.ok [(" A51316", paddedKeyEntry)] ∧
    pyStrip (parseAlertRow sampleAlertRow).icao = (parseAlertRow sampleAlertRow).icao ∧
    get_plane_info [(" A51316", paddedKeyEntry)] (parseAlertRow sampleAlertRow).icao =
      emptyPlaneInfo :=
  ⟨by decide, by decide,
    (raw_key_exact_lookup [sampleAlertRow] (parseAlertRow sampleAlertRow) (by decide)).1,
    (raw_key_exact_lookup [sampleAlertRow] (parseAlertRow sampleAlertRow) (by decide)).2
      [paddedKeyRegRow] [(" A51316", paddedKeyEntry)] (by decide) (by decide)⟩

/-! ## C9 -/

theorem process_alerts_go (send : String → Embed → Bool) (config : Config) (db : Registry)
    (alerts : List AlertRecord) (acc : List (Embed × Bool)) :
    alerts.foldl (fun results plane =>
        let dbinfo := get_plane_info db plane.icao
        let e := buildAlertEmbed config plane dbinfo
        results ++ [(e, send "PA" e)]) acc =
      acc ++ alerts.map (fun plane =>
        (buildAlertEmbed config plane (get_plane_info db plane.icao),
          send "PA" (buildAlertEmbed config plane (get_plane_info db plane.icao)))) := by
  induction alerts generalizing acc with
  | nil => simp
  | cons a t ih => simp [ih]

/-- C9: processing is a strict sequential fold over the loaded alerts in
file order; whatever success or failure each delivery call returns, every
alert's payload is built and handed to delivery — one failed delivery
never prevents the remaining alerts from being processed. -/
theorem process_alerts_never_aborts (send : String → Embed → Bool) (config : Config)
    (db : Registry) (alerts : List AlertRecord) :
    (process_alerts send config db alerts).map Prod.fst =
        alerts.map (fun plane => buildAlertEmbed config plane (get_plane_info db plane.icao)) ∧
    (process_alerts send config db alerts).length = alerts.length := by
  have heq := process_alerts_go send config db alerts []
  rw [List.nil_append] at heq
  constructor
  · rw [process_alerts, heq, List.map_map]
    rfl
  · rw [process_alerts, heq, List.length_map]

end Planefence
